import Mathlib

/-!
Verification of the dawn-rs binding layer (crates dawn-rs and dawn-sys).

The development shallowly embeds the handle-ownership core of
`src/dawn-rs/src/lib.rs`, the label conversion of `src/dawn-rs/src/convert.rs`,
and the descriptor marshaling paths, as executable Lean functions, and proves
the spec's claims about them.  Native calls are modelled as trace events:
raw handles are `Nat` (0 is the null pointer), and each embedded operation
returns the list of native entry-point invocations it performs, in order.
-/

namespace DawnRS

/-- Wrapper types declared with the `impl_handle` macro in lib.rs (lines
195-351): each pairs a raw native handle with its parent and gets a generated
`Clone` (native reference) and `Drop` (native release) implementation. -/
inductive HandleKind
  | buffer
  | texture
  | textureView
  | sampler
  | bindGroupLayout
  | bindGroup
  | shaderModule
  | pipelineLayout
  | renderPipeline
  | computePipeline
  | fence
  | renderBundle
  | surface
  deriving DecidableEq, Repr

/-- Native entry-point invocations observable through the proc table.
`reference k raw` is a call to kind `k`'s reference proc (for example
`bufferReference` when `k` is `buffer`), `release k raw` a call to its
release proc, and `bufferUnmap` the call made by `CreateBufferMapped`. -/
inductive NativeCall
  | reference (k : HandleKind) (raw : Nat)
  | release (k : HandleKind) (raw : Nat)
  | bufferUnmap (raw : Nat)
  deriving DecidableEq, Repr

/-- Body of the `Clone::clone` generated by `impl_handle` (lib.rs 64-103):
when the raw handle is non-null it invokes the type's native reference entry
point once, then returns a wrapper with the same raw handle (the parent field
is an `Arc`/handle clone handled by the parent type's own impl). -/
def cloneTrace (k : HandleKind) (raw : Nat) : List NativeCall :=
  if raw ≠ 0 then [NativeCall.reference k raw] else []

/-- Body of the `Drop::drop` generated by `impl_handle_no_clone` (lib.rs
48-62, reused by `impl_handle`): when the raw handle is non-null it invokes
the type's native release entry point once, otherwise it does nothing. -/
def dropTrace (k : HandleKind) (raw : Nat) : List NativeCall :=
  if raw ≠ 0 then [NativeCall.release k raw] else []

/-- Number of calls to kind `k`'s reference entry point on handle `raw`. -/
def countRef (k : HandleKind) (raw : Nat) (tr : List NativeCall) : Nat :=
  (tr.filter (fun c => c = NativeCall.reference k raw)).length

/-- Number of calls to kind `k`'s release entry point on handle `raw`. -/
def countRel (k : HandleKind) (raw : Nat) (tr : List NativeCall) : Nat :=
  (tr.filter (fun c => c = NativeCall.release k raw)).length

/-- Number of `wgpuBufferUnmap` calls on handle `raw`. -/
def countUnmap (raw : Nat) (tr : List NativeCall) : Nat :=
  (tr.filter (fun c => c = NativeCall.bufferUnmap raw)).length

/-- Native calls performed when a `CreateBufferMapped` is dropped (lib.rs
1017-1025): the `Drop` impl calls `wgpuBufferUnmap` on the non-null buffer
handle, after which the contained `Buffer` field is dropped by its own
generated impl (one `bufferRelease`). -/
def createBufferMappedDropTrace (raw : Nat) : List NativeCall :=
  (if raw ≠ 0 then [NativeCall.bufferUnmap raw] else []) ++ dropTrace HandleKind.buffer raw

/-- `CreateBufferMapped::finish` (lib.rs 1010-1014): clones the contained
buffer, then drops `self` (running the drop path above); returns the cloned
buffer's raw handle together with the native calls made, in order. -/
def createBufferMappedFinish (raw : Nat) : Nat × List NativeCall :=
  (raw, cloneTrace HandleKind.buffer raw ++ createBufferMappedDropTrace raw)

/-- Claim C1: for every clonable handle kind with a non-null raw handle, the
generated clone invokes the type's native reference entry point exactly once
and yields a second wrapper on the same handle; cloning then dropping both
copies produces exactly two calls to the type's release entry point, which
equals the one initial ownership plus the one reference taken by clone (so
no double-release); dropping only one copy leaves exactly one release
outstanding; and the generated drop of a null raw handle makes no native
call. -/
theorem clone_drop_release_discipline (k : HandleKind) (raw : Nat) (h : raw ≠ 0) :
    cloneTrace k raw = [NativeCall.reference k raw] ∧
    countRef k raw (cloneTrace k raw) = 1 ∧
    countRel k raw (cloneTrace k raw ++ dropTrace k raw ++ dropTrace k raw) = 2 ∧
    countRel k raw (cloneTrace k raw ++ dropTrace k raw ++ dropTrace k raw) =
      1 + countRef k raw (cloneTrace k raw) ∧
    countRel k raw (cloneTrace k raw ++ dropTrace k raw) = 1 ∧
    dropTrace k 0 = [] := by
  simp [cloneTrace, dropTrace, countRef, countRel, h]

/-- Witness for C1 at the buffer kind with raw handle 1. -/
theorem clone_drop_release_discipline_witness :
    cloneTrace HandleKind.buffer 1 = [NativeCall.reference HandleKind.buffer 1] ∧
    countRef HandleKind.buffer 1 (cloneTrace HandleKind.buffer 1) = 1 ∧
    countRel HandleKind.buffer 1
      (cloneTrace HandleKind.buffer 1 ++ dropTrace HandleKind.buffer 1 ++
        dropTrace HandleKind.buffer 1) = 2 ∧
    countRel HandleKind.buffer 1
      (cloneTrace HandleKind.buffer 1 ++ dropTrace HandleKind.buffer 1 ++
        dropTrace HandleKind.buffer 1) =
      1 + countRef HandleKind.buffer 1 (cloneTrace HandleKind.buffer 1) ∧
    countRel HandleKind.buffer 1
      (cloneTrace HandleKind.buffer 1 ++ dropTrace HandleKind.buffer 1) = 1 ∧
    dropTrace HandleKind.buffer 0 = [] :=
  clone_drop_release_discipline HandleKind.buffer 1 (by decide)

/-- Claim C5: for a `CreateBufferMapped` with a non-null buffer handle, the
native unmap call happens exactly once on each exit path: `finish` unmaps
once and returns a `Buffer` owning the same underlying handle, and dropping
the object without calling `finish` also unmaps exactly once. -/
theorem create_buffer_mapped_unmap_once (raw : Nat) (h : raw ≠ 0) :
    (createBufferMappedFinish raw).1 = raw ∧
    countUnmap raw (createBufferMappedFinish raw).2 = 1 ∧
    countUnmap raw (createBufferMappedDropTrace raw) = 1 := by
  simp [createBufferMappedFinish, createBufferMappedDropTrace, cloneTrace, dropTrace,
    countUnmap, h]

/-- Witness for C5 at raw handle 1. -/
theorem create_buffer_mapped_unmap_once_witness :
    (createBufferMappedFinish 1).1 = 1 ∧
    countUnmap 1 (createBufferMappedFinish 1).2 = 1 ∧
    countUnmap 1 (createBufferMappedDropTrace 1) = 1 :=
  create_buffer_mapped_unmap_once 1 (by decide)

/-- Value held by the process-wide `PROC_TABLE` static: either a caller
supplied table (`custom`, abstracted to a `Nat` identity) or the default
table produced by `dawn_native__GetProcs`. -/
inductive TableVal
  | custom (t : Nat)
  | dawnNative
  deriving DecidableEq, Repr

/-- State of the proc-table registry: the `INIT : Once` gate of lib.rs line
29 together with the contents of the `PROC_TABLE` static of line 30 (`none`
models the uninitialized `MaybeUninit`). -/
structure ProcTableState where
  initDone : Bool
  table : Option TableVal
  deriving DecidableEq, Repr

/-- Initial process state: `INIT` not fired, `PROC_TABLE` uninitialized. -/
def initialProcTableState : ProcTableState :=
  { initDone := false, table := none }

/-- Embedding of `set_dawn_proc_table` (lib.rs 119-122): `INIT.call_once`
with an empty closure marks the gate fired (a no-op when it already was),
and then the table is written unconditionally. -/
def set_dawn_proc_table (t : Nat) (s : ProcTableState) : ProcTableState :=
  let s := { s with initDone := true }
  { s with table := some (TableVal.custom t) }

/-- Embedding of `init_procs` (lib.rs 1366-1371): the default dawn-native
table is installed inside `INIT.call_once`, so only when the gate has not
fired yet. -/
def init_procs (s : ProcTableState) : ProcTableState :=
  if s.initDone then s
  else { initDone := true, table := some TableVal.dawnNative }

/-- Counterexample to claim C3: installing table 1 and then calling
`set_dawn_proc_table` again with table 2 is not a no-op — the second call
overwrites the installed table, because the write at lib.rs line 121 is
unconditional and outside the `call_once` closure. -/
theorem set_dawn_proc_table_overwrites :
    (set_dawn_proc_table 2 (set_dawn_proc_table 1 initialProcTableState)).table ≠
      (set_dawn_proc_table 1 initialProcTableState).table := by
  decide

/-- Amended claim C3: `set_dawn_proc_table` always installs its argument and
marks the one-shot gate fired (so a later call overwrites an earlier table);
what the gate enforces is only that the lazy default initializer
`init_procs` is a no-op once any initialization has happened, so the default
dawn-native table can take effect at most once and never overwrites a custom
table installed first. -/
theorem set_dawn_proc_table_gates_default (t : Nat) (s : ProcTableState) :
    (set_dawn_proc_table t s).table = some (TableVal.custom t) ∧
    (set_dawn_proc_table t s).initDone = true ∧
    init_procs (set_dawn_proc_table t s) = set_dawn_proc_table t s ∧
    init_procs (init_procs s) = init_procs s := by
  refine ⟨rfl, rfl, ?_, ?_⟩
  · simp [init_procs, set_dawn_proc_table]
  · by_cases h : s.initDone <;> simp [init_procs, h]

/-- Witness for the amended C3 at table 7 and the initial state. -/
theorem set_dawn_proc_table_gates_default_witness :
    (set_dawn_proc_table 7 initialProcTableState).table = some (TableVal.custom 7) ∧
    (set_dawn_proc_table 7 initialProcTableState).initDone = true ∧
    init_procs (set_dawn_proc_table 7 initialProcTableState) =
      set_dawn_proc_table 7 initialProcTableState ∧
    init_procs (init_procs initialProcTableState) = init_procs initialProcTableState :=
  set_dawn_proc_table_gates_default 7 initialProcTableState

/-- User-facing `DeviceDescriptor` (lib.rs 893-897). -/
structure DeviceDescriptor where
  required_extensions : Option (List String)
  force_enabled_toggles : Option (List String)
  force_disabled_toggles : Option (List String)
  deriving DecidableEq, Repr

/-- Native `sys::DeviceDescriptor` (dawn-sys lib.rs 113-122); each pointer
plus count pair is modelled as the list of strings it points at. -/
structure SysDeviceDescriptor where
  requiredExtensions : List String
  forceEnabledToggles : List String
  forceDisabledToggles : List String
  deriving DecidableEq, Repr

/-- Descriptor translation performed by `Adapter::create_device` (lib.rs
1483-1521) before the native creation entry point is invoked.  Note that the
source populates all three local marshaling vectors — `required_extensions`
(lines 1486-1491), `force_enabled_toggles` (lines 1495-1500) and
`force_disabled_toggles` (lines 1504-1509) — from
`descriptor.required_extensions.unwrap_or(&[])`, so all three native lists
receive the required-extensions field. -/
def create_device_marshal (d : DeviceDescriptor) : SysDeviceDescriptor :=
  { requiredExtensions := d.required_extensions.getD []
    forceEnabledToggles := d.required_extensions.getD []
    forceDisabledToggles := d.required_extensions.getD [] }

/-- Descriptor translation as claim C4 states it: each native list is the
marshaled form of its corresponding descriptor field. -/
def create_device_marshal_spec (d : DeviceDescriptor) : SysDeviceDescriptor :=
  { requiredExtensions := d.required_extensions.getD []
    forceEnabledToggles := d.force_enabled_toggles.getD []
    forceDisabledToggles := d.force_disabled_toggles.getD [] }

/-- Claim C4 (code bug): at a descriptor requesting one extension and no
toggles, the code marshals the extension name into the native
`forceEnabledToggles` and `forceDisabledToggles` lists as well, diverging
from the per-field translation the claim states. -/
theorem create_device_marshal_copies_required_extensions :
    create_device_marshal
        { required_extensions := some ["texture-compression-bc"]
          force_enabled_toggles := some []
          force_disabled_toggles := some [] } =
      { requiredExtensions := ["texture-compression-bc"]
        forceEnabledToggles := ["texture-compression-bc"]
        forceDisabledToggles := ["texture-compression-bc"] } ∧
    create_device_marshal_spec
        { required_extensions := some ["texture-compression-bc"]
          force_enabled_toggles := some []
          force_disabled_toggles := some [] } =
      { requiredExtensions := ["texture-compression-bc"]
        forceEnabledToggles := []
        forceDisabledToggles := [] } := by
  constructor <;> rfl

/-- Inline capacity constant of convert.rs line 31: 30 data bytes, of which
at most 28 input bytes plus the terminator are used by the inline variant. -/
def LABEL_MAX_INLINE_WITH_NULL_LEN : Nat := 30

/-- Embedding of `convert::Label` (convert.rs 33-40).  Strings are modelled
as their UTF-8 byte lists.  For the inline variant only the first `len + 1`
bytes of the 30-byte array are ever written and read (the source leaves the
rest uninitialized), so `data` holds exactly the written prefix; the heap
variant holds the `CString` contents including its terminator. -/
inductive Label
  | inline (len : Nat) (data : List Nat)
  | heap (data : List Nat)
  | empty
  deriving DecidableEq, Repr

/-- Embedding of `Label::from_str` (convert.rs 55-72): byte lengths below
`LABEL_MAX_INLINE_WITH_NULL_LEN - 1` take the inline path, which copies the
bytes and writes a terminator at index `len`; longer inputs take the heap
path through `CString::new(..).unwrap()`, which panics (`none`) when the
input contains an interior null byte. -/
def Label.from_str (bytes : List Nat) : Option Label :=
  if bytes.length < LABEL_MAX_INLINE_WITH_NULL_LEN - 1 then
    some (Label.inline bytes.length (bytes ++ [0]))
  else if (0 : Nat) ∈ bytes then none
  else some (Label.heap (bytes ++ [0]))

/-- The byte sequence obtained by reading the pointer returned by
`Label::as_ptr` (convert.rs 74-80) as a C string, i.e. up to the first null
byte; the empty variant returns a null pointer and nothing can be read. -/
def Label.readBack : Label → List Nat
  | Label.inline _ data => data.takeWhile (fun b => b != 0)
  | Label.heap data => data.takeWhile (fun b => b != 0)
  | Label.empty => []

/-- Reading a null-terminated buffer stops exactly at the terminator when
the payload itself contains no null byte. -/
theorem takeWhile_append_null (bytes : List Nat) (h : ∀ b ∈ bytes, b ≠ 0) :
    (bytes ++ [0]).takeWhile (fun b => b != 0) = bytes := by
  induction bytes with
  | nil => simp
  | cons a tl ih =>
      have ha : a ≠ 0 := h a (by simp)
      simp only [List.cons_append, List.takeWhile_cons]
      simp [ha, ih (fun b hb => h b (by simp [hb]))]

/-- Claim C7: for null-free input bytes, any length strictly below the
inline threshold (29 = `LABEL_MAX_INLINE_WITH_NULL_LEN - 1`) takes the
inline path and reads back through `as_ptr` as exactly the input, and any
length at or above the threshold takes the heap path and also reads back as
exactly the input; instantiating at lengths 28 and 29 gives the boundary in
both directions. -/
theorem label_round_trip (bytes : List Nat) (h : ∀ b ∈ bytes, b ≠ 0) :
    (bytes.length < LABEL_MAX_INLINE_WITH_NULL_LEN - 1 →
      Label.from_str bytes = some (Label.inline bytes.length (bytes ++ [0])) ∧
      Label.readBack (Label.inline bytes.length (bytes ++ [0])) = bytes) ∧
    (LABEL_MAX_INLINE_WITH_NULL_LEN - 1 ≤ bytes.length →
      Label.from_str bytes = some (Label.heap (bytes ++ [0])) ∧
      Label.readBack (Label.heap (bytes ++ [0])) = bytes) := by
  constructor
  · intro hlt
    refine ⟨?_, ?_⟩
    · simp [Label.from_str, hlt]
    · simpa [Label.readBack] using takeWhile_append_null bytes h
  · intro hge
    have hnlt : ¬ bytes.length < LABEL_MAX_INLINE_WITH_NULL_LEN - 1 := by omega
    have hmem : (0 : Nat) ∉ bytes := fun hmem => h 0 hmem rfl
    refine ⟨?_, ?_⟩
    · simp [Label.from_str, hnlt, hmem]
    · simpa [Label.readBack] using takeWhile_append_null bytes h

/-- Witness for C7 at the boundary: 28 bytes is inline, 29 bytes is heap. -/
theorem label_round_trip_witness :
    (Label.from_str (List.replicate 28 97) =
        some (Label.inline (List.replicate 28 97).length (List.replicate 28 97 ++ [0])) ∧
      Label.readBack
          (Label.inline (List.replicate 28 97).length (List.replicate 28 97 ++ [0])) =
        List.replicate 28 97) ∧
    (Label.from_str (List.replicate 29 97) =
        some (Label.heap (List.replicate 29 97 ++ [0])) ∧
      Label.readBack (Label.heap (List.replicate 29 97 ++ [0])) =
        List.replicate 29 97) :=
  ⟨(label_round_trip (List.replicate 28 97) (by decide)).1 (by decide),
   (label_round_trip (List.replicate 29 97) (by decide)).2 (by decide)⟩

/-- Native binding-type enumeration values referenced by lib.rs 1749-1771
(`sys::WGPUBindingType_*`, declared in the generated native bindings). -/
inductive WGPUBindingType
  | UniformBuffer
  | StorageBuffer
  | ReadonlyStorageBuffer
  | Sampler
  | SampledTexture
  | StorageTexture
  | ReadonlyStorageTexture
  | WriteonlyStorageTexture
  deriving DecidableEq, Repr

/-- User-facing `BindingType` (lib.rs 474-516).  The `dimension`,
`component_type` and `format` payloads are opaque enum values, modelled as
naturals since the flattening copies them through unchanged. -/
inductive BindingType
  | UniformBuffer (dynamic : Bool)
  | StorageBuffer (dynamic readonly : Bool)
  | Sampler (comparison : Bool)
  | SampledTexture (dimension component_type : Nat) (multisampled : Bool)
  | StorageTexture (dimension component_type format : Nat) (readonly writeonly : Bool)
  deriving DecidableEq, Repr

/-- Flattening of the binding-type tag performed for the `type_` field in
`Device::create_bind_group_layout` (lib.rs 1749-1771). -/
def bindingTypeToNative : BindingType → WGPUBindingType
  | BindingType.UniformBuffer _ => WGPUBindingType.UniformBuffer
  | BindingType.StorageBuffer _ readonly =>
      match readonly with
      | false => WGPUBindingType.StorageBuffer
      | true => WGPUBindingType.ReadonlyStorageBuffer
  | BindingType.Sampler _ => WGPUBindingType.Sampler
  | BindingType.SampledTexture _ _ _ => WGPUBindingType.SampledTexture
  | BindingType.StorageTexture _ _ _ readonly writeonly =>
      match readonly, writeonly with
      | false, false => WGPUBindingType.StorageTexture
      | true, false => WGPUBindingType.ReadonlyStorageTexture
      | false, true => WGPUBindingType.WriteonlyStorageTexture
      | true, true => WGPUBindingType.StorageTexture

/-- Auxiliary `hasDynamicOffset` flag (lib.rs 1772-1776). -/
def bindingTypeHasDynamicOffset : BindingType → Bool
  | BindingType.UniformBuffer dynamic => dynamic
  | BindingType.StorageBuffer dynamic _ => dynamic
  | _ => false

/-- Auxiliary `multisampled` flag (lib.rs 1777-1780). -/
def bindingTypeMultisampled : BindingType → Bool
  | BindingType.SampledTexture _ _ multisampled => multisampled
  | _ => false

/-- Claim C8: the flattening in `create_bind_group_layout` maps every
reachable binding-type tag to a defined native enumeration value together
with its auxiliary flags, and a storage-texture binding with both the
read-only and write-only flags set collapses to the same single native
storage-texture value as the plain read-write case. -/
theorem binding_type_flattening_total :
    (∀ dyn, bindingTypeToNative (BindingType.UniformBuffer dyn) =
      WGPUBindingType.UniformBuffer ∧
      bindingTypeHasDynamicOffset (BindingType.UniformBuffer dyn) = dyn) ∧
    (∀ dyn, bindingTypeToNative (BindingType.StorageBuffer dyn false) =
      WGPUBindingType.StorageBuffer ∧
      bindingTypeToNative (BindingType.StorageBuffer dyn true) =
        WGPUBindingType.ReadonlyStorageBuffer ∧
      ∀ ro, bindingTypeHasDynamicOffset (BindingType.StorageBuffer dyn ro) = dyn) ∧
    (∀ comparison, bindingTypeToNative (BindingType.Sampler comparison) =
      WGPUBindingType.Sampler) ∧
    (∀ d c m, bindingTypeToNative (BindingType.SampledTexture d c m) =
      WGPUBindingType.SampledTexture ∧
      bindingTypeMultisampled (BindingType.SampledTexture d c m) = m) ∧
    (∀ d c f, bindingTypeToNative (BindingType.StorageTexture d c f false false) =
      WGPUBindingType.StorageTexture ∧
      bindingTypeToNative (BindingType.StorageTexture d c f true false) =
        WGPUBindingType.ReadonlyStorageTexture ∧
      bindingTypeToNative (BindingType.StorageTexture d c f false true) =
        WGPUBindingType.WriteonlyStorageTexture ∧
      bindingTypeToNative (BindingType.StorageTexture d c f true true) =
        WGPUBindingType.StorageTexture ∧
      bindingTypeToNative (BindingType.StorageTexture d c f true true) =
        bindingTypeToNative (BindingType.StorageTexture d c f false false)) := by
  refine ⟨fun dyn => ⟨rfl, rfl⟩, fun dyn => ⟨rfl, rfl, fun ro => rfl⟩,
    fun comparison => rfl, fun d c m => ⟨rfl, rfl⟩, fun d c f => ⟨rfl, rfl, rfl, rfl, rfl⟩⟩

/-- One past the largest value representable in the native 32-bit counts. -/
def U32_MOD : Nat := 4294967296

/-- Modelled from the spec: the 32-bit target width of these conversions is
declared by the generated native bindings (dawn-sys webgpu.rs, produced at
build time and absent from src), which the spec calls the "narrower native
integer width" for counts; the conversion itself is the Rust `as` cast,
which reduces modulo 2^32 without any check. -/
def usize_as_u32 (n : Nat) : Nat := n % U32_MOD

/-- Modelled from the spec: the checked counterpart, Rust
`try_into()` to the 32-bit native width; `unwrap()` on the `none` case is a
panic, the spec's loud local failure. -/
def usize_try_into_u32 (n : Nat) : Option Nat :=
  if n < U32_MOD then some n else none

/-- Marshaling of the `bindingCount` field in `Device::create_bind_group`
(lib.rs 1659-1665): the scratch vector holds one raw entry per descriptor
entry (lines 1634-1658) and its length is converted with an unchecked `as`
cast. -/
def create_bind_group_bindingCount (raw_entries : List Nat) : Nat :=
  usize_as_u32 raw_entries.length

/-- Marshaling of the `colorAttachmentCount` field in
`CommandEncoder::begin_render_pass` (lib.rs 2648-2652): unchecked `as` cast
of the color-attachment list length. -/
def begin_render_pass_colorAttachmentCount (raw_color_attachments : List Nat) : Nat :=
  usize_as_u32 raw_color_attachments.length

/-- State owned by a `Queue` wrapper that `submit` touches: the reusable
`temp_commands` scratch list (lib.rs 335-339). -/
structure QueueState where
  temp_commands : List Nat
  deriving DecidableEq, Repr

/-- Arguments of the native `wgpuQueueSubmit` call. -/
structure SubmitCall where
  commandCount : Nat
  commands : List Nat
  deriving DecidableEq, Repr

/-- Embedding of `Queue::submit` (lib.rs 2355-2366): the scratch list is
cleared, each command buffer's raw handle is pushed in order, the count is
converted with `try_into().unwrap()` (`none` models the panic), and the
native submit call receives the scratch list and count.  Returns the new
queue state and the native call made, if any. -/
def Queue.submit (q : QueueState) (commands : List Nat) : QueueState × Option SubmitCall :=
  let temp : List Nat := []
  let temp := commands.foldl (fun acc raw => acc ++ [raw]) temp
  match usize_try_into_u32 temp.length with
  | some count => (⟨temp⟩, some ⟨count, temp⟩)
  | none => (⟨temp⟩, none)

/-- Pushing the elements of a list one by one onto an accumulator appends
the list to it. -/
theorem foldl_push_eq_append (l acc : List Nat) :
    l.foldl (fun acc raw => acc ++ [raw]) acc = acc ++ l := by
  induction l generalizing acc with
  | nil => simp
  | cons a tl ih => simp [List.foldl_cons, ih (acc ++ [a])]

/-- Counterexample to claim C6: marshaling a bind-group entry list whose
length is exactly 2^32 produces a native `bindingCount` of 0 with no local
failure — the `as` cast silently truncates instead of failing loudly. -/
theorem binding_count_silently_truncates :
    create_bind_group_bindingCount (List.replicate U32_MOD 0) = 0 ∧
    (List.replicate U32_MOD 0).length ≠ 0 := by
  constructor
  · show usize_as_u32 (List.replicate U32_MOD 0).length = 0
    rw [List.length_replicate]
    exact Nat.mod_self _
  · rw [List.length_replicate]
    exact Nat.pos_iff_ne_zero.mp (by norm_num [U32_MOD])

/-- Amended claim C6: counts converted with `try_into().unwrap()` (such as
the queue-submit command count) are surfaced as a loud local failure before
the native call when they exceed the 32-bit native width, and are passed
through unchanged otherwise; but counts converted with unchecked `as` casts
(bind-group `bindingCount`, render-pass `colorAttachmentCount`) are reduced
modulo 2^32 and so are silently truncated when they do not fit. -/
theorem count_marshaling_mixed (q : QueueState) (cmds entries atts : List Nat) :
    (cmds.length < U32_MOD →
      (Queue.submit q cmds).2 = some ⟨cmds.length, cmds⟩) ∧
    (U32_MOD ≤ cmds.length → (Queue.submit q cmds).2 = none) ∧
    create_bind_group_bindingCount entries = entries.length % U32_MOD ∧
    begin_render_pass_colorAttachmentCount atts = atts.length % U32_MOD := by
  refine ⟨?_, ?_, rfl, rfl⟩
  · intro hlt
    simp [Queue.submit, foldl_push_eq_append, usize_try_into_u32, hlt]
  · intro hge
    have hnlt : ¬ cmds.length < U32_MOD := by omega
    simp [Queue.submit, foldl_push_eq_append, usize_try_into_u32, hnlt]

/-- Witness for the amended C6: both the in-range pass-through and the
out-of-range loud failure of the checked path, and the truncating `as`
casts, at concrete inputs. -/
theorem count_marshaling_mixed_witness :
    (Queue.submit ⟨[9]⟩ [3]).2 = some ⟨1, [3]⟩ ∧
    (Queue.submit ⟨[]⟩ (List.replicate U32_MOD 0)).2 = none ∧
    create_bind_group_bindingCount [1, 2] = 2 ∧
    begin_render_pass_colorAttachmentCount [5] = 1 := by
  have h1 := count_marshaling_mixed ⟨[9]⟩ [3] [1, 2] [5]
  have h2 := count_marshaling_mixed ⟨[]⟩ (List.replicate U32_MOD 0) [] []
  refine ⟨h1.1 (by decide), h2.2.1 (by simp [List.length_replicate]), ?_, ?_⟩
  · rw [h1.2.2.1]; decide
  · rw [h1.2.2.2]; decide

/-- Claim C9: `Queue::submit` fully clears the reusable scratch list before
repopulating it, so (whenever the command count fits the native width) the
native submit call receives exactly the raw handles of the given list in
order with the count equal to its length, and the result is independent of
whatever a previous submit left in the scratch list. -/
theorem queue_submit_no_stale_handles (q : QueueState) (cmds : List Nat)
    (hlen : cmds.length < U32_MOD) :
    (Queue.submit q cmds).1.temp_commands = cmds ∧
    (Queue.submit q cmds).2 = some ⟨cmds.length, cmds⟩ ∧
    ∀ q₂ : QueueState, Queue.submit q₂ cmds = Queue.submit q cmds := by
  refine ⟨?_, ?_, ?_⟩
  · simp [Queue.submit, foldl_push_eq_append, usize_try_into_u32, hlen]
  · simp [Queue.submit, foldl_push_eq_append, usize_try_into_u32, hlen]
  · intro q₂
    simp [Queue.submit]

/-- Witness for C9: a second submit with a different list after a first one
left stale handles in the scratch. -/
theorem queue_submit_no_stale_handles_witness :
    (Queue.submit ⟨[7, 8, 9]⟩ [1, 2]).1.temp_commands = [1, 2] ∧
    (Queue.submit ⟨[7, 8, 9]⟩ [1, 2]).2 = some ⟨2, [1, 2]⟩ ∧
    ∀ q₂ : QueueState, Queue.submit q₂ [1, 2] = Queue.submit ⟨[7, 8, 9]⟩ [1, 2] :=
  queue_submit_no_stale_handles ⟨[7, 8, 9]⟩ [1, 2] (by decide)

/-- Backend enumeration (lib.rs 409-417). -/
inductive BackendType
  | Vulkan
  | Metal
  | D3D12
  | D3D11
  | OpenGL
  | OpenGLES
  | Null
  deriving DecidableEq, Repr

/-- Events observable from `SwapChain::configure`: taking and dropping the
device lock, and the native `wgpuSwapChainConfigure` call with its format,
usage bits, width and height arguments. -/
inductive CfgEvent
  | lock
  | unlock
  | native (format usage width height : Nat)
  deriving DecidableEq, Repr

/-- Embedding of `SwapChain::configure` (lib.rs 2226-2248): for the D3D12
backend the method returns immediately with no native call (the comment in
the source notes that backend crashes when configured twice); for any other
backend the device lock is taken and held across one native
`wgpuSwapChainConfigure` call with the given arguments. -/
def swapChain_configure (backend : BackendType) (format usage width height : Nat) :
    List CfgEvent :=
  if backend = BackendType.D3D12 then []
  else [CfgEvent.lock, CfgEvent.native format usage width height, CfgEvent.unlock]

/-- Claim C10: a D3D12 swap chain's configure makes no native call and
changes nothing, while every other backend performs exactly one native
configure call, under the device lock, with the given format, usage, width
and height. -/
theorem swap_chain_configure_backend (b : BackendType) (format usage width height : Nat)
    (hb : b ≠ BackendType.D3D12) :
    swapChain_configure BackendType.D3D12 format usage width height = [] ∧
    swapChain_configure b format usage width height =
      [CfgEvent.lock, CfgEvent.native format usage width height, CfgEvent.unlock] := by
  constructor
  · simp [swapChain_configure]
  · simp [swapChain_configure, hb]

/-- Witness for C10 at the Vulkan backend. -/
theorem swap_chain_configure_backend_witness :
    swapChain_configure BackendType.D3D12 10 3 640 480 = [] ∧
    swapChain_configure BackendType.Vulkan 10 3 640 480 =
      [CfgEvent.lock, CfgEvent.native 10 3 640 480, CfgEvent.unlock] :=
  swap_chain_configure_backend BackendType.Vulkan 10 3 640 480 (by decide)

/-- Wrapper type on which a public method making a native call is defined. -/
inductive Receiver
  | device
  | queue
  | swapChain
  | commandEncoder
  | texture
  | buffer
  | computePassEncoder
  | renderPassEncoder
  | renderBundleEncoder
  | computePipeline
  | renderPipeline
  deriving DecidableEq, Repr

/-- Events of one public operation: acquiring the device mutex
(`self.inner.lock()` on the `Device`), invoking the native entry point, and
dropping the mutex guard. -/
inductive Event
  | lock
  | native
  | unlock
  deriving DecidableEq, Repr

/-- Public operations of the binding layer that invoke a native entry point
touching a device or a resource derived from it, one constructor per method
in lib.rs.  Each constructor is named after its Rust receiver and method. -/
inductive Op
  | deviceCreateSwapChain
  | deviceCreateBindGroup
  | deviceCreateBindGroupLayout
  | deviceCreateBuffer
  | deviceCreateBufferMapped
  | deviceCreateCommandEncoder
  | deviceCreatePipelineLayout
  | deviceCreateComputePipeline
  | deviceCreateRenderPipeline
  | deviceCreateSampler
  | deviceCreateShaderModule
  | deviceCreateTexture
  | deviceTick
  | deviceInjectError
  | deviceDefaultQueue
  | deviceSetErrorCallback
  | queueSubmit
  | queueSignal
  | queueCreateFence
  | swapChainPresent
  | swapChainGetCurrentTextureView
  | swapChainConfigure
  | commandEncoderBeginComputePass
  | commandEncoderBeginRenderPass
  | commandEncoderCopyBufferToBuffer
  | commandEncoderCopyBufferToTexture
  | commandEncoderCopyTextureToBuffer
  | commandEncoderCopyTextureToTexture
  | commandEncoderFinish
  | textureCreateView
  | bufferUnmap
  | bufferSetSubData
  | computePassEncoderDispatch
  | computePassEncoderDispatchIndirect
  | computePassEncoderEndPass
  | computePassEncoderInsertDebugMarker
  | computePassEncoderPushDebugGroup
  | computePassEncoderPopDebugGroup
  | computePassEncoderSetBindGroup
  | computePassEncoderSetPipeline
  | renderPassEncoderDraw
  | renderPassEncoderDrawIndexed
  | renderPassEncoderDrawIndirect
  | renderPassEncoderDrawIndexedIndirect
  | renderPassEncoderEndPass
  | renderPassEncoderExecuteBundles
  | renderPassEncoderInsertDebugMarker
  | renderPassEncoderPushDebugGroup
  | renderPassEncoderPopDebugGroup
  | renderPassEncoderSetBindGroup
  | renderPassEncoderSetBlendColor
  | renderPassEncoderSetIndexBuffer
  | renderPassEncoderSetPipeline
  | renderPassEncoderSetScissorRect
  | renderPassEncoderSetStencilReference
  | renderPassEncoderSetVertexBuffer
  | renderPassEncoderSetViewport
  | renderBundleEncoderDraw
  | renderBundleEncoderDrawIndexed
  | renderBundleEncoderDrawIndirect
  | renderBundleEncoderDrawIndexedIndirect
  | renderBundleEncoderFinish
  | renderBundleEncoderInsertDebugMarker
  | renderBundleEncoderPushDebugGroup
  | renderBundleEncoderPopDebugGroup
  | renderBundleEncoderSetBindGroup
  | renderBundleEncoderSetIndexBuffer
  | renderBundleEncoderSetPipeline
  | renderBundleEncoderSetVertexBuffer
  | computePipelineGetBindGroupLayout
  | renderPipelineGetBindGroupLayout
  deriving DecidableEq, Fintype, Repr

/-- Receiver type of each operation. -/
def opReceiver : Op → Receiver
  | Op.deviceCreateSwapChain | Op.deviceCreateBindGroup
  | Op.deviceCreateBindGroupLayout | Op.deviceCreateBuffer
  | Op.deviceCreateBufferMapped | Op.deviceCreateCommandEncoder
  | Op.deviceCreatePipelineLayout | Op.deviceCreateComputePipeline
  | Op.deviceCreateRenderPipeline | Op.deviceCreateSampler
  | Op.deviceCreateShaderModule | Op.deviceCreateTexture
  | Op.deviceTick | Op.deviceInjectError
  | Op.deviceDefaultQueue | Op.deviceSetErrorCallback => Receiver.device
  | Op.queueSubmit | Op.queueSignal | Op.queueCreateFence => Receiver.queue
  | Op.swapChainPresent | Op.swapChainGetCurrentTextureView
  | Op.swapChainConfigure => Receiver.swapChain
  | Op.commandEncoderBeginComputePass | Op.commandEncoderBeginRenderPass
  | Op.commandEncoderCopyBufferToBuffer | Op.commandEncoderCopyBufferToTexture
  | Op.commandEncoderCopyTextureToBuffer | Op.commandEncoderCopyTextureToTexture
  | Op.commandEncoderFinish => Receiver.commandEncoder
  | Op.textureCreateView => Receiver.texture
  | Op.bufferUnmap | Op.bufferSetSubData => Receiver.buffer
  | Op.computePassEncoderDispatch | Op.computePassEncoderDispatchIndirect
  | Op.computePassEncoderEndPass | Op.computePassEncoderInsertDebugMarker
  | Op.computePassEncoderPushDebugGroup | Op.computePassEncoderPopDebugGroup
  | Op.computePassEncoderSetBindGroup
  | Op.computePassEncoderSetPipeline => Receiver.computePassEncoder
  | Op.renderPassEncoderDraw | Op.renderPassEncoderDrawIndexed
  | Op.renderPassEncoderDrawIndirect | Op.renderPassEncoderDrawIndexedIndirect
  | Op.renderPassEncoderEndPass | Op.renderPassEncoderExecuteBundles
  | Op.renderPassEncoderInsertDebugMarker | Op.renderPassEncoderPushDebugGroup
  | Op.renderPassEncoderPopDebugGroup | Op.renderPassEncoderSetBindGroup
  | Op.renderPassEncoderSetBlendColor | Op.renderPassEncoderSetIndexBuffer
  | Op.renderPassEncoderSetPipeline | Op.renderPassEncoderSetScissorRect
  | Op.renderPassEncoderSetStencilReference | Op.renderPassEncoderSetVertexBuffer
  | Op.renderPassEncoderSetViewport => Receiver.renderPassEncoder
  | Op.renderBundleEncoderDraw | Op.renderBundleEncoderDrawIndexed
  | Op.renderBundleEncoderDrawIndirect | Op.renderBundleEncoderDrawIndexedIndirect
  | Op.renderBundleEncoderFinish | Op.renderBundleEncoderInsertDebugMarker
  | Op.renderBundleEncoderPushDebugGroup | Op.renderBundleEncoderPopDebugGroup
  | Op.renderBundleEncoderSetBindGroup | Op.renderBundleEncoderSetIndexBuffer
  | Op.renderBundleEncoderSetPipeline
  | Op.renderBundleEncoderSetVertexBuffer => Receiver.renderBundleEncoder
  | Op.computePipelineGetBindGroupLayout => Receiver.computePipeline
  | Op.renderPipelineGetBindGroupLayout => Receiver.renderPipeline

/-- Event sequence of each operation, translated from its body: ops that
bind the result of `self.inner.lock()` (or hold the guard temporary) across
the native call produce lock-native-unlock; ops whose body invokes the
native entry point with no `lock()` call produce a bare native event.
Device methods: lib.rs 1581-1628 (default_queue, create_swap_chain),
1630-1810 (bind groups), 1812-1896 (buffers, command encoder), 1898-2179
(pipelines, sampler, shader module, texture, tick, inject_error), 1558-1579
(set_error_callback, whose guard temporary lives until the end of the call
statement).  Queue: 2331-2373.  SwapChain: 2210-2248 (configure on its
non-D3D12 path).  CommandEncoder: 2584-2827.  Texture: 2560-2582.  Buffer:
2963-2975.  ComputePassEncoder: 2251-2318, RenderPassEncoder: 2376-2547,
RenderBundleEncoder: 2829-2961 (only finish, lines 2888-2901, locks), and
pipeline get_bind_group_layout: 2320-2329 and 2549-2558 — none of these
lock. -/
def opTrace (op : Op) : List Event :=
  match opReceiver op, op with
  | Receiver.computePassEncoder, _ => [Event.native]
  | Receiver.renderPassEncoder, _ => [Event.native]
  | Receiver.computePipeline, _ => [Event.native]
  | Receiver.renderPipeline, _ => [Event.native]
  | Receiver.renderBundleEncoder, op =>
      match op with
      | Op.renderBundleEncoderFinish => [Event.lock, Event.native, Event.unlock]
      | _ => [Event.native]
  | _, _ => [Event.lock, Event.native, Event.unlock]

/-- Whether every native call in the trace happens while the device lock is
held (the running count of outstanding lock acquisitions is positive). -/
def nativesLocked : List Event → Nat → Bool
  | [], _ => true
  | Event.lock :: tl, d => nativesLocked tl (d + 1)
  | Event.unlock :: tl, d => nativesLocked tl (d - 1)
  | Event.native :: tl, d => decide (0 < d) && nativesLocked tl d

/-- Counterexample to claim C2: `ComputePassEncoder::dispatch` (lib.rs
2251-2256) invokes its native entry point with no device lock held, so not
every native call touching a device-derived resource runs under the lock. -/
theorem compute_pass_dispatch_unlocked :
    nativesLocked (opTrace Op.computePassEncoderDispatch) 0 = false := by
  decide

/-- Amended claim C2: every native call made by a Device, Queue, SwapChain,
CommandEncoder, Texture or Buffer operation runs with the device lock held
for its whole duration, but the recording methods of the pass encoders (for
example `RenderPassEncoder::draw`) execute their native calls without the
lock. -/
theorem device_lock_guards_native_calls :
    (∀ op : Op,
      opReceiver op ∈ [Receiver.device, Receiver.queue, Receiver.swapChain,
        Receiver.commandEncoder, Receiver.texture, Receiver.buffer] →
      nativesLocked (opTrace op) 0 = true) ∧
    nativesLocked (opTrace Op.renderPassEncoderDraw) 0 = false := by
  refine ⟨?_, by decide⟩
  decide

/-- Witness for the amended C2 at `Device::create_buffer`. -/
theorem device_lock_guards_native_calls_witness :
    nativesLocked (opTrace Op.deviceCreateBuffer) 0 = true ∧
    nativesLocked (opTrace Op.renderPassEncoderDraw) 0 = false :=
  ⟨device_lock_guards_native_calls.1 Op.deviceCreateBuffer (by decide),
    device_lock_guards_native_calls.2⟩

end DawnRS
